import Mathlib

/-!
Shallow embedding of the SmartHealthQuote backend (Python/Flask) in Lean 4.

Source files embedded:
- src/backend/app/services/costing.py  (CostMatrixCalculator)
- src/backend/app/services/rag.py      (RagIndex over a FAISS inner-product index)
- src/backend/app/routes/utils.py      (get_rag, build_query_text)
- src/backend/app/routes/quote.py      (the /api/quote handler)
- src/backend/app/services/llm.py      (LLMClient.generate_quote fallback behaviour)
- src/backend/scripts/ingest.py        (build_text_representation)
- src/backend/app/models/schemas.py    (QuoteRequest and its age validator)

Modelling conventions:
- Python floats are idealized as rationals (ℚ); Python's `round` (banker's
  rounding, round-half-to-even) is modelled exactly by `pyRound`.
- The transcendental `x ** 0.3` used for extrapolating above the top
  sum-insured band is kept abstract: the functions that need it take a
  parameter `rpow03 : ℚ → ℚ` standing for that power function.
- Python float formatting (`str(x)`, `f"{x:.1f}"`) is kept abstract as a
  parameter `fmt : String → ℚ → String` (format spec, value); no theorem
  below depends on its concrete behaviour.
- Python truthiness of optional strings/ints (`x or default`) is modelled by
  `pyOrStr` / `pyOrInt` (absent, empty string, and zero are falsy).
- External collaborators (the embedding provider, the generation provider and
  the filesystem) are modelled as explicit inputs: the query embedding is an
  argument, the provider call result is a `LlmOutcome`, and the two persisted
  index artifacts are `Option` values.
-/

/-- Python's built-in `round` on an exact rational: round half to even. -/
def pyRound (x : ℚ) : ℤ :=
  let n : ℤ := Int.floor x
  let frac : ℚ := x - n
  if frac < 1/2 then n
  else if 1/2 < frac then n + 1
  else if n % 2 = 0 then n else n + 1

/-- Embeds `round(x / 10.0) * 10.0`, the rounding-to-nearest-10 used in costing.py. -/
def round10 (x : ℚ) : ℚ := (pyRound (x / 10) : ℚ) * 10

/-- Python `s or d` for an optional string: `None` and `""` are falsy. -/
def pyOrStr (o : Option String) (d : String) : String :=
  match o with
  | none => d
  | some s => if s.isEmpty then d else s

/-- Python `n or d` for an optional int: `None` and `0` are falsy. -/
def pyOrInt (o : Option ℤ) (d : ℤ) : ℤ :=
  match o with
  | none => d
  | some n => if n = 0 then d else n

/-- Python `str.strip()`: drop whitespace from both ends. -/
def pyStrip (s : String) : String :=
  ⟨((s.data.dropWhile Char.isWhitespace).reverse.dropWhile Char.isWhitespace).reverse⟩

/-- Truthiness of `s and s.strip()` for an optional string: present with
non-whitespace content. Used for the pre-existing-conditions and
family-medical-history uplifts in costing.py. -/
def hasContent (o : Option String) : Bool :=
  match o with
  | none => false
  | some s => !s.isEmpty && !(pyStrip s).isEmpty

/-- Python `sep.join(parts)`. -/
def pyJoin (sep : String) : List String → String
  | [] => ""
  | [a] => a
  | a :: b :: rest => a ++ sep ++ pyJoin sep (b :: rest)

/-- Embeds the `QuoteRequest` pydantic model of
src/backend/app/models/schemas.py. All fields are optional; ints are
unbounded in Python so they become ℤ, floats become ℚ, and the `Gender`
literal type is kept as a string. -/
structure QuoteRequest where
  age : Option ℤ
  medicalHistory : Option String
  lifestyle : Option String
  coverageNeed : Option String
  gender : Option String
  location : Option String
  occupation : Option String
  number_of_insured_members : Option ℤ
  family_details : Option String
  pre_existing_conditions : Option String
  past_medical_history : Option String
  family_medical_history : Option String
  height_cm : Option ℚ
  weight_kg : Option ℚ
  bmi : Option ℚ
  pregnancy_status : Option String
  smoking_tobacco_use : Option String
  alcohol_consumption : Option String
  exercise_frequency : Option String
  plan_type : Option String
  sum_insured : Option ℤ
  policy_term_years : Option ℤ
  premium_payment_mode : Option String
deriving DecidableEq

/-- The all-absent request (every optional field `None`). -/
def emptyReq : QuoteRequest :=
  ⟨none, none, none, none, none, none, none, none, none, none, none, none,
   none, none, none, none, none, none, none, none, none, none, none⟩

/-- Embeds the only value-level validator of `QuoteRequest`
(schemas.py `check_age`): age, when present, must lie in [0, 120]. No other
field is range-checked. -/
def validates (r : QuoteRequest) : Bool :=
  match r.age with
  | some a => decide (0 ≤ a ∧ a ≤ 120)
  | none => true

/-- Embeds `CostMatrixCalculator.BASE_BY_SUM_INSURED` (costing.py). -/
def baseBySumInsured : List (ℤ × ℚ) :=
  [(300000, 7000), (500000, 9000), (700000, 12000), (1000000, 15000),
   (1500000, 19000), (2000000, 23000), (3000000, 30000), (5000000, 42000)]

/-- Embeds `CostMatrixCalculator.AGE_BANDS` (costing.py). -/
def ageBands : List (ℚ × ℚ) :=
  [(25, (9/10)), (35, 1), (45, (12/10)), (55, (145/100)), (65, (18/10)), (200, (22/10))]

/-- Embeds `CostMatrixCalculator.BMI_BANDS` (costing.py). -/
def bmiBands : List (ℚ × ℚ) :=
  [((185/10), (95/100)), ((249/10), 1), ((299/10), (115/100)), ((349/10), (13/10)), (100, (15/10))]

/-- Embeds `CostMatrixCalculator.LOCATION_METRO` (costing.py). -/
def metroCities : List String :=
  ["Mumbai", "Delhi", "Bengaluru", "Bangalore", "Chennai", "Kolkata",
   "Hyderabad", "Pune"]

/-- Embeds `CostMatrixCalculator._band`: first band whose threshold the value
does not exceed, else the last band's factor (`bands[-1][1]`). -/
def band (value : ℚ) (bands : List (ℚ × ℚ)) : ℚ :=
  match bands.find? (fun p => decide (value ≤ p.1)) with
  | some p => p.2
  | none => ((bands.getLast?).map Prod.snd).getD 1

/-- Embeds `CostMatrixCalculator._pick_base`: `if not sum_insured` (absent or
zero) gives the default 15000; otherwise the first configured band whose
threshold is at least the request; above the top band, extrapolate
`42000 * (s / 5000000) ** 0.3` (the power is the abstract `rpow03`). -/
def pickBase (rpow03 : ℚ → ℚ) : Option ℤ → ℚ
  | none => 15000
  | some s =>
    if s = 0 then 15000
    else
      match baseBySumInsured.find? (fun p => decide (s ≤ p.1)) with
      | some p => p.2
      | none => 42000 * rpow03 ((s : ℚ) / 5000000)

/-- Embeds `CostMatrixCalculator._bmi`: the explicit bmi wins; otherwise
compute from height/weight when both are truthy and the height positive. -/
def bmiOf (h w bmi : Option ℚ) : Option ℚ :=
  match bmi with
  | some b => some b
  | none =>
    match h, w with
    | some hv, some wv =>
      if hv ≠ 0 ∧ wv ≠ 0 ∧ 0 < hv then some (wv / ((hv / 100) ^ 2)) else none
    | _, _ => none

/-- BMI multiplier: banded when a BMI is determined, neutral otherwise. -/
def bmiFactor : Option ℚ → ℚ
  | some b => band b bmiBands
  | none => 1

/-- Embeds `LIFESTYLE_FACTORS["smoking"].get(key, 1.0)`. -/
def smokingFactor (s : String) : ℚ :=
  if s = "No" then 1 else if s = "Occasional" then (11/10)
  else if s = "Yes" then (125/100) else 1

/-- Embeds `LIFESTYLE_FACTORS["alcohol"].get(key, 1.0)`. -/
def alcoholFactor (s : String) : ℚ :=
  if s = "Never" then 1 else if s = "Occasional" then (105/100)
  else if s = "Regular" then (11/10) else 1

/-- Embeds `LIFESTYLE_FACTORS["exercise"].get(key, 1.0)`. -/
def exerciseFactor (s : String) : ℚ :=
  if s = "Sedentary" then (11/10) else if s = "1-2 times/week" then (105/100)
  else if s = "3-4 times/week" then 1 else if s = "Daily" then (97/100) else 1

/-- Embeds `1.0 + max(0, members - 1) * MEMBERS_FACTOR_STEP` (step (8/100)). -/
def membersFactor (m : ℤ) : ℚ := 1 + ((max 0 (m - 1) : ℤ) : ℚ) * (8/100)

/-- Embeds `PLAN_TYPE_FACTOR.get(key, 1.0)`. -/
def planFactor (s : String) : ℚ :=
  if s = "Individual" then 1 else if s = "Family" then (12/10) else 1

/-- Embeds the metro-location uplift on the stripped location string. -/
def locFactor (s : String) : ℚ := if metroCities.contains s then (108/100) else 1

/-- Embeds `TERM_FACTOR.get(term, 1.0)`. -/
def termFactor (t : ℤ) : ℚ :=
  if t = 1 then 1 else if t = 2 then (99/100) else if t = 3 then (98/100) else 1

/-- Embeds `PAYMENT_MODE_FACTOR.get(mode, 1.0)`. -/
def payFactor (s : String) : ℚ :=
  if s = "Monthly" then 1 else if s = "Quarterly" then (99/100)
  else if s = "Half-Yearly" then (985/1000) else if s = "Yearly" then (98/100) else 1

/-- The raw multiplicative premium of `CostMatrixCalculator._compute_base_annual`
before the 3000 floor and the rounding: base rate times all eleven factors
(including the term factor, applied last in the source). -/
def premiumRaw (rpow03 : ℚ → ℚ) (req : QuoteRequest) : ℚ :=
  pickBase rpow03 req.sum_insured
  * band ((req.age.getD 35 : ℤ) : ℚ) ageBands
  * bmiFactor (bmiOf req.height_cm req.weight_kg req.bmi)
  * smokingFactor (pyOrStr req.smoking_tobacco_use "No")
  * alcoholFactor (pyOrStr req.alcohol_consumption "Never")
  * exerciseFactor (pyOrStr req.exercise_frequency "3-4 times/week")
  * membersFactor (pyOrInt req.number_of_insured_members 1)
  * planFactor (pyOrStr req.plan_type "Individual")
  * (if hasContent req.pre_existing_conditions then (11/10) else 1)
  * (if hasContent req.family_medical_history then (105/100) else 1)
  * locFactor (pyStrip (pyOrStr req.location ""))
  * termFactor (pyOrInt req.policy_term_years 1)

/-- Embeds `CostMatrixCalculator._compute_base_annual`: floor the raw premium
at 3000 and round to the nearest 10. -/
def computeBaseAnnual (rpow03 : ℚ → ℚ) (req : QuoteRequest) : ℚ :=
  round10 (max 3000 (premiumRaw rpow03 req))

/-- Embeds `CostMatrixCalculator.compute_total_payable`: apply the requested
payment-mode factor (default mode "Yearly"), floor at 3000, round to 10. -/
def computeTotalPayable (rpow03 : ℚ → ℚ) (req : QuoteRequest) : ℚ :=
  round10 (max 3000
    (computeBaseAnnual rpow03 req * payFactor (pyOrStr req.premium_payment_mode "Yearly")))

/-- The per-installment map returned by `compute_breakdown`: one amount per
standard payment-mode label. -/
structure Breakdown where
  yearly : ℚ
  halfYearly : ℚ
  quarterly : ℚ
  monthly : ℚ
deriving DecidableEq

/-- Embeds the inner `_round2` of `compute_breakdown`: floor at `3000/12`,
then round to the nearest 10. -/
def round2floor (x : ℚ) : ℚ := round10 (max (3000/12) x)

/-- Embeds `CostMatrixCalculator.compute_breakdown` (costing.py): the Yearly
entry floors the full annual total at 3000; the split entries divide by the
installment count and floor at `3000/12`. -/
def computeBreakdown (rpow03 : ℚ → ℚ) (req : QuoteRequest) : Breakdown :=
  let ba := computeBaseAnnual rpow03 req
  { yearly := round10 (max 3000 (ba * payFactor "Yearly"))
    halfYearly := round2floor (ba * payFactor "Half-Yearly" / 2)
    quarterly := round2floor (ba * payFactor "Quarterly" / 4)
    monthly := round2floor (ba * payFactor "Monthly" / 12) }

/-- One metadata record of the index (rag.py keeps a parallel list of dicts;
the fields read by the serving path are the display text and the optional
historical premium). -/
structure DocMeta where
  text : String
  premium_inr : Option ℚ
deriving DecidableEq

/-- Embeds the `RagIndex` state (rag.py): an optional FAISS index, modelled as
the list of stored vectors in insertion order, plus the metadata list. -/
structure RagIndex where
  index : Option (List (List ℚ))
  metadata : List DocMeta
deriving DecidableEq

/-- Errors raised by `RagIndex.search`: the `ValueError("Index not loaded…")`
when no index object exists, and the Python `IndexError` that a metadata
lookup past the end of the list would raise. -/
inductive RagErr where
  | indexNotLoaded
  | metaIndexError
deriving DecidableEq

/-- Error raised by `RagIndex.load`: `FileNotFoundError` for a missing artifact. -/
inductive LoadErr where
  | notFound
deriving DecidableEq

/-- Embeds `RagIndex.create_index`: replace the index with one holding exactly
the supplied embeddings, as supplied (no normalization happens here). -/
def RagIndex.create_index (st : RagIndex) (embs : List (List ℚ)) : RagIndex :=
  { st with index := some embs }

/-- Embeds `RagIndex.add_documents`: create the index if absent, else append
the supplied embeddings; extend the metadata list. -/
def RagIndex.add_documents (st : RagIndex) (embs : List (List ℚ)) (meta : List DocMeta) : RagIndex :=
  match st.index with
  | none => { st with index := some embs, metadata := st.metadata ++ meta }
  | some vs => { st with index := some (vs ++ embs), metadata := st.metadata ++ meta }

/-- Inner product of two vectors (FAISS `IndexFlatIP` scoring). -/
def dot (a b : List ℚ) : ℚ := (List.zipWith (fun x y => x * y) a b).sum

/-- Squared L2 norm of a vector. -/
def sqNorm (v : List ℚ) : ℚ := dot v v

/-- Insert into a list sorted by the boolean relation `le` (stable). -/
def insertBy {α : Type} (le : α → α → Bool) (a : α) : List α → List α
  | [] => [a]
  | b :: l => if le a b then a :: b :: l else b :: insertBy le a l

/-- Stable insertion sort by the boolean relation `le`. -/
def sortBy {α : Type} (le : α → α → Bool) : List α → List α
  | [] => []
  | a :: l => insertBy le a (sortBy le l)

/-- Semantics of `faiss.IndexFlatIP.search` on the stored vectors: score every
entry by inner product with the query, order by descending score (ties by
ascending id), return the best `k` pairs, padding with id `-1` when fewer
than `k` entries exist. -/
def faissSearch (vectors : List (List ℚ)) (q : List ℚ) (k : ℕ) : List (ℚ × ℤ) :=
  let scored := vectors.enum.map (fun p => (dot q p.2, (p.1 : ℤ)))
  let sorted := sortBy
    (fun x y => decide (y.1 < x.1) || (decide (x.1 = y.1) && decide (x.2 ≤ y.2)))
    scored
  sorted.take k ++ List.replicate (k - min k sorted.length) ((0 : ℚ), (-1 : ℤ))

/-- A search hit as assembled by `RagIndex.search` (rag.py): id, score, the
metadata `text` and the optional historical premium. -/
structure SearchResult where
  id : ℤ
  score : ℚ
  text : String
  premium_inr : Option ℚ
deriving DecidableEq

/-- The result-assembly loop of `RagIndex.search`: skip padded `-1` ids,
look every other id up in the metadata list (raising like Python list
indexing when out of range), and build the result records in order. -/
def buildResults (meta : List DocMeta) : List (ℚ × ℤ) → Except RagErr (List SearchResult)
  | [] => .ok []
  | p :: rest =>
    if p.2 = -1 then buildResults meta rest
    else
      match meta.get? p.2.toNat with
      | none => .error .metaIndexError
      | some m =>
        match buildResults meta rest with
        | .error e => .error e
        | .ok tl => .ok (⟨p.2, p.1, m.text, m.premium_inr⟩ :: tl)

/-- Embeds `RagIndex.search`: raise `indexNotLoaded` when no index object
exists (and only then); otherwise search and assemble results. The query is
used exactly as supplied — the source only reshapes it, it does not
normalize. -/
def RagIndex.search (st : RagIndex) (q : List ℚ) (k : ℕ) : Except RagErr (List SearchResult) :=
  match st.index with
  | none => .error .indexNotLoaded
  | some vs => buildResults st.metadata (faissSearch vs q k)

/-- Embeds `RagIndex.load` over the two persisted artifacts, each modelled as
an optional parsed content (absent file ↦ `none`): missing index artifact
raises first, then missing metadata artifact; otherwise both are loaded,
with no consistency check between their counts. -/
def RagIndex.load (fsIndex : Option (List (List ℚ))) (fsMeta : Option (List DocMeta)) :
    Except LoadErr RagIndex :=
  match fsIndex with
  | none => .error .notFound
  | some vs =>
    match fsMeta with
    | none => .error .notFound
    | some ms => .ok ⟨some vs, ms⟩

/-- Embeds `get_rag` (routes/utils.py): try to load; any failure (missing
files, import errors, …) yields `None` so the caller can run without RAG. -/
def getRag (fsIndex : Option (List (List ℚ))) (fsMeta : Option (List DocMeta)) :
    Option RagIndex :=
  match RagIndex.load fsIndex fsMeta with
  | .ok r => some r
  | .error _ => none

/-- Query-time part for the age field: included whenever present
(`is not None`), even when zero. -/
def agePart (o : Option ℤ) : List String :=
  match o with
  | some a => ["Age: " ++ toString a]
  | none => []

/-- Query-time part for a string field: included when truthy (non-empty). -/
def strParts (label : String) (o : Option String) : List String :=
  match o with
  | some s => if s.isEmpty then [] else [label ++ s]
  | none => []

/-- Query-time part for an int field: included when truthy (non-zero). -/
def intParts (label : String) (o : Option ℤ) : List String :=
  match o with
  | some n => if n = 0 then [] else [label ++ toString n]
  | none => []

/-- Query-time part for a float field rendered with `fmt`: included when
truthy (non-zero). -/
def ratParts (fmt : String → ℚ → String) (label : String) (o : Option ℚ) : List String :=
  match o with
  | some x => if x = 0 then [] else [label ++ fmt "" x]
  | none => []

/-- Embeds `build_query_text` (routes/utils.py): the query-time profile
encoder. Fixed field order, "Label: value" parts joined by single spaces,
falsy fields omitted, fixed fallback when nothing is present. -/
def buildQueryText (fmt : String → ℚ → String) (req : QuoteRequest) : String :=
  let parts :=
    agePart req.age
    ++ strParts "Gender: " req.gender
    ++ strParts "Location: " req.location
    ++ strParts "Occupation: " req.occupation
    ++ intParts "Members: " req.number_of_insured_members
    ++ strParts "Pre-existing: " req.pre_existing_conditions
    ++ strParts "Past: " req.past_medical_history
    ++ strParts "Family: " req.family_medical_history
    ++ ratParts fmt "BMI: " req.bmi
    ++ strParts "Pregnancy: " req.pregnancy_status
    ++ strParts "Smoking: " req.smoking_tobacco_use
    ++ strParts "Alcohol: " req.alcohol_consumption
    ++ strParts "Exercise: " req.exercise_frequency
    ++ strParts "Plan Type: " req.plan_type
    ++ intParts "Sum Insured: " req.sum_insured
    ++ intParts "Term: " req.policy_term_years
    ++ strParts "Payment: " req.premium_payment_mode
    ++ strParts "Medical History: " req.medicalHistory
    ++ strParts "Lifestyle: " req.lifestyle
    ++ strParts "Coverage Need: " req.coverageNeed
  if parts.isEmpty then "Health insurance quote request" else pyJoin " " parts

/-- One historical record as read by the ingestion script (scripts/ingest.py):
the CSV columns consumed by `build_text_representation`, with `NaN`/missing
cells as `none`. -/
structure IngestRecord where
  age : Option ℤ
  gender : Option String
  location : Option String
  occupation : Option String
  members : Option ℤ
  family_details : Option String
  pre_existing_conditions : Option String
  past_medical_history : Option String
  family_medical_history : Option String
  height_cm : Option ℚ
  weight_kg : Option ℚ
  pregnancy_status : Option String
  smoking_tobacco_use : Option String
  alcohol_consumption : Option String
  exercise_frequency : Option String
  plan_type : Option String
  sum_insured : Option ℤ
  policy_term_years : Option ℤ
  premium_payment_mode : Option String
  premium_inr : Option ℚ
deriving DecidableEq

/-- The all-missing ingestion record. -/
def emptyRecord : IngestRecord :=
  ⟨none, none, none, none, none, none, none, none, none, none,
   none, none, none, none, none, none, none, none, none, none⟩

/-- Ingestion-time part for a present string cell (`pd.notna`), included even
when empty. -/
def notnaStr (label : String) (o : Option String) : List String :=
  match o with
  | some s => [label ++ s]
  | none => []

/-- Ingestion-time part for a present int cell, with an optional suffix. -/
def notnaInt (label : String) (o : Option ℤ) (tail : String) : List String :=
  match o with
  | some n => [label ++ toString n ++ tail]
  | none => []

/-- Ingestion-time part for a present float cell rendered with `fmt spec`. -/
def notnaRat (fmt : String → ℚ → String) (spec : String) (label : String) (o : Option ℚ) :
    List String :=
  match o with
  | some x => [label ++ fmt spec x]
  | none => []

/-- Embeds `build_text_representation` (scripts/ingest.py): the
ingestion-time record encoder. Parts are joined by "; "; the BMI is computed
from height and weight (requiring both present) and rendered with the
Python format `.1f`; different labels and a different fallback from the
query-time encoder. -/
def buildTextRepresentation (fmt : String → ℚ → String) (row : IngestRecord) : String :=
  let bmiParts : List String :=
    match row.height_cm, row.weight_kg with
    | some h, some w => ["BMI: " ++ fmt ".1f" (w / ((h / 100) ^ 2))]
    | _, _ => []
  let parts :=
    notnaInt "Age: " row.age ""
    ++ notnaStr "Gender: " row.gender
    ++ notnaStr "Location: " row.location
    ++ notnaStr "Occupation: " row.occupation
    ++ notnaInt "Family size: " row.members ""
    ++ notnaStr "Family details: " row.family_details
    ++ notnaStr "Pre-existing conditions: " row.pre_existing_conditions
    ++ notnaStr "Past medical history: " row.past_medical_history
    ++ notnaStr "Family medical history: " row.family_medical_history
    ++ bmiParts
    ++ notnaStr "Pregnancy status: " row.pregnancy_status
    ++ notnaStr "Smoking/tobacco: " row.smoking_tobacco_use
    ++ notnaStr "Alcohol: " row.alcohol_consumption
    ++ notnaStr "Exercise: " row.exercise_frequency
    ++ notnaStr "Plan type: " row.plan_type
    ++ notnaInt "Sum insured: ₹" row.sum_insured ""
    ++ notnaInt "Policy term: " row.policy_term_years " years"
    ++ notnaStr "Payment mode: " row.premium_payment_mode
    ++ notnaRat fmt "" "Premium: ₹" row.premium_inr
  if parts.isEmpty then "Insurance record" else pyJoin "; " parts

/-- The JSON object the generation provider may return (llm.py); every key is
optional because the route reads them with `dict.get`. -/
structure LlmJson where
  planName : Option String
  premiumINR : Option ℚ
  sumInsured : Option ℤ
  policyTermYears : Option ℤ
  paymentMode : Option String
  deductibleINR : Option ℚ
  coinsurancePercent : Option ℚ
  coverageDetails : Option (List String)
  rationale : Option String
deriving DecidableEq

/-- The all-absent provider JSON object. -/
def emptyLlmJson : LlmJson := ⟨none, none, none, none, none, none, none, none, none⟩

/-- Outcome of the generation-provider call (llm.py `generate_quote`):
a transport error / timeout / non-2xx status (the request call raises), a
2xx reply whose text fails `json.loads`, or a parsed JSON object. -/
inductive LlmOutcome where
  | httpError
  | unparseable (raw : String)
  | parsed (j : LlmJson)

/-- Embeds the hard-coded fallback dict of `LLMClient.generate_quote`
(llm.py, the `json.JSONDecodeError` branch): fixed plan, fixed premium
15000.0, request-derived echo fields, and a rationale quoting the first 200
characters of the unparseable reply. -/
def defaultQuoteJson (req : QuoteRequest) (raw : String) : LlmJson :=
  { planName := some "Standard Health Plan"
    premiumINR := some 15000
    sumInsured := some (pyOrInt req.sum_insured 500000)
    policyTermYears := some (pyOrInt req.policy_term_years 20)
    paymentMode := some (pyOrStr req.premium_payment_mode "Yearly")
    deductibleINR := some 5000
    coinsurancePercent := some 10
    coverageDetails := some ["Hospitalization coverage", "Pre and post hospitalization",
      "Day care procedures", "Ambulance charges"]
    rationale := some ("Standard plan recommended based on provided information. LLM response: "
      ++ raw.take 200 ++ "...") }

/-- Embeds `LLMClient.generate_quote` as seen by the route: a transport error
propagates as an exception; an unparseable reply is replaced by the default
dict; a parsed reply is returned as-is. -/
def generate_quote (req : QuoteRequest) : LlmOutcome → Except Unit LlmJson
  | .httpError => .error ()
  | .unparseable raw => .ok (defaultQuoteJson req raw)
  | .parsed j => .ok j

/-- One retrieved example as placed in the response (`RetrievedContext` in
schemas.py / the `context_examples` of quote.py). -/
structure ContextExample where
  id : ℤ
  score : ℚ
  snippet : String
  premium_inr : Option ℚ
deriving DecidableEq

/-- Embeds `QuoteResponse` (schemas.py) as assembled by quote.py. -/
structure QuoteResponseM where
  planName : String
  premiumINR : ℚ
  sumInsured : Option ℤ
  policyTermYears : Option ℤ
  paymentMode : Option String
  deductibleINR : Option ℚ
  coinsurancePercent : Option ℚ
  coverageDetails : List String
  rationale : String
  basedOnExamples : List ContextExample
deriving DecidableEq

/-- Outcome of the `/api/quote` route: a JSON quote (HTTP 200) or an error
payload (HTTP 500) carrying the route's error message. -/
inductive HandlerResult where
  | ok (r : QuoteResponseM)
  | error (msg : String)
deriving DecidableEq

/-- The headline premium of a handler outcome, when priced. -/
def HandlerResult.premiumOf : HandlerResult → Option ℚ
  | .ok r => some r.premiumINR
  | .error _ => none

/-- The retrieved-examples list of a handler outcome, when priced. -/
def HandlerResult.examplesOf : HandlerResult → Option (List ContextExample)
  | .ok r => some r.basedOnExamples
  | .error _ => none

/-- The tail of the `/api/quote` handler (routes/quote.py) once the search
results are in hand: build the context examples, call the generation
provider, and assemble the response. A provider exception becomes the 500
response "LLM generation failed"; otherwise the response is assembled from
the provider JSON with the route's `dict.get` defaults, carrying the
retrieved examples untouched. -/
def quoteWithResults (req : QuoteRequest) (results : List SearchResult)
    (llmOut : LlmOutcome) : HandlerResult :=
  let ctx : List ContextExample :=
    results.map (fun r => ⟨r.id, r.score, r.text, r.premium_inr⟩)
  match generate_quote req llmOut with
  | .error _ => .error "LLM generation failed"
  | .ok j =>
    .ok ⟨j.planName.getD "Standard Health Plan",
         j.premiumINR.getD 15000,
         j.sumInsured, j.policyTermYears, j.paymentMode,
         j.deductibleINR, j.coinsurancePercent,
         j.coverageDetails.getD [],
         j.rationale.getD "Based on provided information and similar cases.",
         ctx⟩

/-- Embeds the `/api/quote` handler (routes/quote.py) from the point where the
request has validated and the query embedding has been produced. `rag` is
what `get_rag()` returned: when it is `None`, the unconditional
`rag.search(...)` raises `AttributeError`, which the surrounding `try` turns
into the 500 response "RAG search failed"; the same happens when `search`
itself raises. `CostMatrixCalculator` is never consulted on this path. -/
def quoteHandler (req : QuoteRequest) (qEmb : List ℚ) (k : ℕ)
    (rag : Option RagIndex) (llmOut : LlmOutcome) : HandlerResult :=
  match rag with
  | none => .error "RAG search failed"
  | some st =>
    match st.search qEmb k with
    | .error _ => .error "RAG search failed"
    | .ok results => quoteWithResults req results llmOut

/-- A valid minimal profile: age 30 only. -/
def reqC1 : QuoteRequest := { emptyReq with age := some 30 }

/-- A profile whose deterministic headline differs from 15000: age 50 and a
sum insured of 500000 give `compute_total_payable` = 12790. -/
def reqC2 : QuoteRequest := { emptyReq with age := some 50, sum_insured := some 500000 }

/-! ## General lemmas about rounding -/

theorem pyRound_ge (x : ℚ) : x - 1/2 ≤ (pyRound x : ℚ) := by
  have h1 : ((Int.floor x : ℤ) : ℚ) ≤ x := Int.floor_le x
  have h2 : x - 1 < ((Int.floor x : ℤ) : ℚ) := Int.sub_one_lt_floor x
  have hdef : pyRound x =
      if x - (Int.floor x : ℚ) < 1/2 then Int.floor x
      else if 1/2 < x - (Int.floor x : ℚ) then Int.floor x + 1
      else if Int.floor x % 2 = 0 then Int.floor x else Int.floor x + 1 := rfl
  rw [hdef]
  split_ifs <;> push_cast <;> linarith

theorem pyRound_le (x : ℚ) : (pyRound x : ℚ) ≤ x + 1/2 := by
  have h1 : ((Int.floor x : ℤ) : ℚ) ≤ x := Int.floor_le x
  have h2 : x - 1 < ((Int.floor x : ℤ) : ℚ) := Int.sub_one_lt_floor x
  have hdef : pyRound x =
      if x - (Int.floor x : ℚ) < 1/2 then Int.floor x
      else if 1/2 < x - (Int.floor x : ℚ) then Int.floor x + 1
      else if Int.floor x % 2 = 0 then Int.floor x else Int.floor x + 1 := rfl
  rw [hdef]
  split_ifs <;> push_cast <;> linarith

theorem round10_ge (x : ℚ) : x - 5 ≤ round10 x := by
  have h := pyRound_ge (x / 10)
  unfold round10
  linarith

theorem round10_le (x : ℚ) : round10 x ≤ x + 5 := by
  have h := pyRound_le (x / 10)
  unfold round10
  linarith

/-! ## Evaluation and bound lemmas for the cost matrix -/

theorem pickBase_eq (rpow03 : ℚ → ℚ) (s : ℤ) :
    pickBase rpow03 (some s) =
      if s = 0 then 15000
      else if s ≤ 300000 then 7000
      else if s ≤ 500000 then 9000
      else if s ≤ 700000 then 12000
      else if s ≤ 1000000 then 15000
      else if s ≤ 1500000 then 19000
      else if s ≤ 2000000 then 23000
      else if s ≤ 3000000 then 30000
      else if s ≤ 5000000 then 42000
      else 42000 * rpow03 ((s : ℚ) / 5000000) := by
  by_cases h0 : s = 0
  · simp [pickBase, h0]
  by_cases h1 : s ≤ 300000
  · simp [pickBase, baseBySumInsured, List.find?, h0, h1]
  by_cases h2 : s ≤ 500000
  · simp [pickBase, baseBySumInsured, List.find?, h0, h1, h2]
  by_cases h3 : s ≤ 700000
  · simp [pickBase, baseBySumInsured, List.find?, h0, h1, h2, h3]
  by_cases h4 : s ≤ 1000000
  · simp [pickBase, baseBySumInsured, List.find?, h0, h1, h2, h3, h4]
  by_cases h5 : s ≤ 1500000
  · simp [pickBase, baseBySumInsured, List.find?, h0, h1, h2, h3, h4, h5]
  by_cases h6 : s ≤ 2000000
  · simp [pickBase, baseBySumInsured, List.find?, h0, h1, h2, h3, h4, h5, h6]
  by_cases h7 : s ≤ 3000000
  · simp [pickBase, baseBySumInsured, List.find?, h0, h1, h2, h3, h4, h5, h6, h7]
  by_cases h8 : s ≤ 5000000
  · simp [pickBase, baseBySumInsured, List.find?, h0, h1, h2, h3, h4, h5, h6, h7, h8]
  · simp [pickBase, baseBySumInsured, List.find?, h0, h1, h2, h3, h4, h5, h6, h7, h8]

theorem pickBase_ge (rpow03 : ℚ → ℚ) (hpow : ∀ x : ℚ, 1 ≤ x → 1 ≤ rpow03 x)
    (o : Option ℤ) : 7000 ≤ pickBase rpow03 o := by
  match o with
  | none => norm_num [pickBase]
  | some s =>
    rw [pickBase_eq]
    split_ifs with h0 h1 h2 h3 h4 h5 h6 h7 h8 <;> try norm_num
    have hs : (5000000 : ℚ) < (s : ℚ) := by exact_mod_cast lt_of_not_le h8
    have harg : (1 : ℚ) ≤ (s : ℚ) / 5000000 := by
      rw [le_div_iff₀ (by norm_num : (0:ℚ) < 5000000)]
      linarith
    have := hpow _ harg
    nlinarith

theorem ageFactor_ge (v : ℚ) : 9/10 ≤ band v ageBands := by
  by_cases h1 : v ≤ 25
  · simp [band, ageBands, List.find?, h1]
  by_cases h2 : v ≤ 35
  · simp [band, ageBands, List.find?, h1, h2]; norm_num
  by_cases h3 : v ≤ 45
  · simp [band, ageBands, List.find?, h1, h2, h3]; norm_num
  by_cases h4 : v ≤ 55
  · simp [band, ageBands, List.find?, h1, h2, h3, h4]; norm_num
  by_cases h5 : v ≤ 65
  · simp [band, ageBands, List.find?, h1, h2, h3, h4, h5]; norm_num
  by_cases h6 : v ≤ 200
  · simp [band, ageBands, List.find?, h1, h2, h3, h4, h5, h6]; norm_num
  · simp [band, ageBands, List.find?, h1, h2, h3, h4, h5, h6]; norm_num

theorem bmiFactor_ge (o : Option ℚ) : 95/100 ≤ bmiFactor o := by
  match o with
  | none => norm_num [bmiFactor]
  | some b =>
    show (95/100 : ℚ) ≤ band b bmiBands
    by_cases h1 : b ≤ (185/10 : ℚ)
    · simp [band, bmiBands, List.find?, h1]
    by_cases h2 : b ≤ (249/10 : ℚ)
    · simp [band, bmiBands, List.find?, h1, h2]; norm_num
    by_cases h3 : b ≤ (299/10 : ℚ)
    · simp [band, bmiBands, List.find?, h1, h2, h3]; norm_num
    by_cases h4 : b ≤ (349/10 : ℚ)
    · simp [band, bmiBands, List.find?, h1, h2, h3, h4]; norm_num
    by_cases h5 : b ≤ (100 : ℚ)
    · simp [band, bmiBands, List.find?, h1, h2, h3, h4, h5]; norm_num
    · simp [band, bmiBands, List.find?, h1, h2, h3, h4, h5]; norm_num

theorem smokingFactor_ge (s : String) : 1 ≤ smokingFactor s := by
  unfold smokingFactor; split_ifs <;> norm_num

theorem alcoholFactor_ge (s : String) : 1 ≤ alcoholFactor s := by
  unfold alcoholFactor; split_ifs <;> norm_num

theorem exerciseFactor_ge (s : String) : 97/100 ≤ exerciseFactor s := by
  unfold exerciseFactor; split_ifs <;> norm_num

theorem membersFactor_ge (m : ℤ) : 1 ≤ membersFactor m := by
  unfold membersFactor
  have h : (0:ℤ) ≤ max 0 (m - 1) := le_max_left 0 (m - 1)
  have h2 : (0:ℚ) ≤ ((max 0 (m - 1) : ℤ) : ℚ) := by exact_mod_cast h
  nlinarith

theorem planFactor_ge (s : String) : 1 ≤ planFactor s := by
  unfold planFactor; split_ifs <;> norm_num

theorem locFactor_ge (s : String) : 1 ≤ locFactor s := by
  unfold locFactor; split_ifs <;> norm_num

theorem termFactor_ge (t : ℤ) : 98/100 ≤ termFactor t := by
  unfold termFactor; split_ifs <;> norm_num

theorem mulChainBound (b a1 a2 a3 a4 a5 a6 a7 a8 a9 a10 a11 : ℚ)
    (hb : 7000 ≤ b) (h1 : 9/10 ≤ a1) (h2 : 95/100 ≤ a2) (h3 : 1 ≤ a3) (h4 : 1 ≤ a4)
    (h5 : 97/100 ≤ a5) (h6 : 1 ≤ a6) (h7 : 1 ≤ a7) (h8 : 1 ≤ a8) (h9 : 1 ≤ a9)
    (h10 : 1 ≤ a10) (h11 : 98/100 ≤ a11) :
    5689 ≤ b * a1 * a2 * a3 * a4 * a5 * a6 * a7 * a8 * a9 * a10 * a11 := by
  have c0 : (0:ℚ) ≤ b := by linarith
  have c1 : (0:ℚ) ≤ a1 := by linarith
  have c2 : (0:ℚ) ≤ a2 := by linarith
  have c3 : (0:ℚ) ≤ a3 := by linarith
  have c4 : (0:ℚ) ≤ a4 := by linarith
  have c5 : (0:ℚ) ≤ a5 := by linarith
  have c6 : (0:ℚ) ≤ a6 := by linarith
  have c7 : (0:ℚ) ≤ a7 := by linarith
  have c8 : (0:ℚ) ≤ a8 := by linarith
  have c9 : (0:ℚ) ≤ a9 := by linarith
  have c10 : (0:ℚ) ≤ a10 := by linarith
  have c11 : (0:ℚ) ≤ a11 := by linarith
  calc (5689:ℚ) ≤ 7000 * (9/10) * (95/100) * 1 * 1 * (97/100) * 1 * 1 * 1 * 1 * 1 * (98/100) := by
        norm_num
    _ ≤ b * a1 * a2 * a3 * a4 * a5 * a6 * a7 * a8 * a9 * a10 * a11 := by gcongr

theorem premiumRaw_ge (rpow03 : ℚ → ℚ) (hpow : ∀ x : ℚ, 1 ≤ x → 1 ≤ rpow03 x)
    (req : QuoteRequest) : 5689 ≤ premiumRaw rpow03 req := by
  unfold premiumRaw
  refine mulChainBound _ _ _ _ _ _ _ _ _ _ _ _
    (pickBase_ge rpow03 hpow req.sum_insured)
    (ageFactor_ge _) (bmiFactor_ge _) (smokingFactor_ge _) (alcoholFactor_ge _)
    (exerciseFactor_ge _) (membersFactor_ge _) (planFactor_ge _) ?_ ?_
    (locFactor_ge _) (termFactor_ge _)
  · split_ifs <;> norm_num
  · split_ifs <;> norm_num

theorem computeBaseAnnual_eq (rpow03 : ℚ → ℚ) (hpow : ∀ x : ℚ, 1 ≤ x → 1 ≤ rpow03 x)
    (req : QuoteRequest) :
    computeBaseAnnual rpow03 req = round10 (premiumRaw rpow03 req) := by
  unfold computeBaseAnnual
  rw [max_eq_right]
  linarith [premiumRaw_ge rpow03 hpow req]

theorem computeBaseAnnual_ge (rpow03 : ℚ → ℚ) (hpow : ∀ x : ℚ, 1 ≤ x → 1 ≤ rpow03 x)
    (req : QuoteRequest) : 5684 ≤ computeBaseAnnual rpow03 req := by
  rw [computeBaseAnnual_eq rpow03 hpow req]
  linarith [round10_ge (premiumRaw rpow03 req), premiumRaw_ge rpow03 hpow req]

/-! ## Lemmas about the index model -/

theorem mem_insertBy {α : Type} (le : α → α → Bool) (a b : α) (l : List α) :
    b ∈ insertBy le a l ↔ b = a ∨ b ∈ l := by
  induction l with
  | nil => simp [insertBy]
  | cons c l ih =>
    simp only [insertBy]
    split_ifs
    · simp [List.mem_cons]
    · simp only [List.mem_cons, ih]
      tauto

theorem mem_sortBy {α : Type} (le : α → α → Bool) (b : α) (l : List α) :
    b ∈ sortBy le l ↔ b ∈ l := by
  induction l with
  | nil => simp [sortBy]
  | cons c l ih =>
    simp only [sortBy, mem_insertBy, List.mem_cons, ih]

theorem faissSearch_ids (vectors : List (List ℚ)) (q : List ℚ) (k : ℕ) :
    ∀ p ∈ faissSearch vectors q k, p.2 = -1 ∨ (0 ≤ p.2 ∧ p.2.toNat < vectors.length) := by
  intro p hp
  unfold faissSearch at hp
  rw [List.mem_append] at hp
  rcases hp with hp | hp
  · have hp2 := List.mem_of_mem_take hp
    rw [mem_sortBy] at hp2
    rw [List.mem_map] at hp2
    obtain ⟨q2, hq2, rfl⟩ := hp2
    right
    have hmem := List.mem_enum_iff_getElem?.mp hq2
    have hlt : q2.1 < vectors.length := (List.getElem?_eq_some.mp hmem).1
    constructor
    · exact Int.ofNat_nonneg q2.1
    · simpa using hlt
  · left
    have hp1 := List.eq_of_mem_replicate hp
    rw [hp1]

theorem buildResults_replicate (meta : List DocMeta) (k : ℕ) :
    buildResults meta (List.replicate k ((0:ℚ), (-1:ℤ))) = .ok [] := by
  induction k with
  | zero => rfl
  | succ k ih => simpa [List.replicate_succ, buildResults] using ih

theorem buildResults_isOk (meta : List DocMeta) (l : List (ℚ × ℤ))
    (h : ∀ p ∈ l, p.2 = -1 ∨ (0 ≤ p.2 ∧ p.2.toNat < meta.length)) :
    ∃ res, buildResults meta l = .ok res := by
  induction l with
  | nil => exact ⟨[], rfl⟩
  | cons p l ih =>
    obtain ⟨res, hres⟩ := ih (fun q hq => h q (List.mem_cons_of_mem _ hq))
    rcases h p (List.mem_cons_self _ _) with h1 | ⟨h1, h2⟩
    · exact ⟨res, by simp [buildResults, h1, hres]⟩
    · have hget : ∃ m, meta[p.2.toNat]? = some m :=
        ⟨meta[p.2.toNat], List.getElem?_eq_some.mpr ⟨h2, rfl⟩⟩
      obtain ⟨m, hm⟩ := hget
      by_cases hne : p.2 = -1
      · exact ⟨res, by simp [buildResults, hne, hres]⟩
      · exact ⟨⟨p.2, p.1, m.text, m.premium_inr⟩ :: res, by
          simp [buildResults, hne, hm, hres]⟩

/-! ## The claims -/

/-- C1: the claim says a valid Profile with an unavailable vector index still
gets a priced response (headline and breakdown from CostMatrixCalculator)
with an empty retrieved-examples list. The code does the opposite: `get_rag`
returns `None` (as its own comments prescribe, to "allow non-RAG flow"), but
the route then calls `rag.search` unconditionally, so the request fails with
the 500 response "RAG search failed" and no price is produced; the route
never consults `CostMatrixCalculator` at all. This theorem exhibits the
behaviour at the failing input: a valid profile (age 30) with both index
artifacts absent. -/
theorem claim_C1 :
    validates reqC1 = true ∧ getRag none none = none ∧
    ∀ (emb : List ℚ) (k : ℕ) (llmOut : LlmOutcome),
      quoteHandler reqC1 emb k (getRag none none) llmOut = .error "RAG search failed" ∧
      (quoteHandler reqC1 emb k (getRag none none) llmOut).premiumOf = none :=
  ⟨rfl, rfl, fun _ _ _ => ⟨rfl, rfl⟩⟩

/-- C2 counterexample: with a loaded one-entry index and a generation reply
that fails to parse, the final headline premium is the fixed default 15000,
while the deterministic `compute_total_payable` for the same request (age
50, sum insured 500000) is 12790 — so the headline does not equal the
CostMatrixCalculator number on provider parse failure. -/
theorem claim_C2_counterexample :
    (quoteHandler reqC2 [1] 8 (some ⟨some [[1]], [⟨"ex", some 12000⟩]⟩)
        (.unparseable "not json")).premiumOf = some 15000 ∧
    computeTotalPayable (fun x => x) reqC2 = 12790 ∧ (15000 : ℚ) ≠ 12790 := by
  refine ⟨?_, ?_, by norm_num⟩
  · have hsearch : RagIndex.search ⟨some [[1]], [⟨"ex", some 12000⟩]⟩ [1] 8 =
        .ok [⟨0, 1, "ex", some 12000⟩] := by
      show buildResults _ (faissSearch [[1]] [1] 8) = _
      have hf : faissSearch [[1]] [1] 8 =
          ((1:ℚ), (0:ℤ)) :: List.replicate 7 ((0:ℚ), (-1:ℤ)) := by
        simp [faissSearch, sortBy, insertBy, dot]
      rw [hf]
      simp [buildResults, List.replicate]
    show (match RagIndex.search ⟨some [[1]], [⟨"ex", some 12000⟩]⟩ [1] 8 with
          | .error _ => HandlerResult.error "RAG search failed"
          | .ok results => quoteWithResults reqC2 results (.unparseable "not json")).premiumOf
          = some (15000:ℚ)
    rw [hsearch]
    rfl
  · have h : premiumRaw (fun x => x) reqC2 = 13050 := by
      simp [premiumRaw, pickBase, baseBySumInsured, List.find?, band, ageBands,
        bmiFactor, bmiOf, smokingFactor, alcoholFactor, exerciseFactor, membersFactor,
        planFactor, locFactor, metroCities, termFactor, pyOrStr, pyOrInt, hasContent,
        pyStrip, reqC2, emptyReq]
      norm_num
    have hp : payFactor (pyOrStr reqC2.premium_payment_mode "Yearly") = 49/50 := by
      simp [payFactor, pyOrStr, reqC2, emptyReq]
      norm_num
    rw [computeTotalPayable, computeBaseAnnual, h, hp]
    have hb : round10 (max 3000 (13050:ℚ)) = 13050 := by norm_num [round10, pyRound]
    rw [hb]
    norm_num [round10, pyRound]

/-- C2 amended: when the generation provider's output fails to parse, the
route's headline premium is the fixed default 15000 from `generate_quote`'s
fallback dict (not the CostMatrixCalculator number, which the route never
computes); when the provider errors or times out, the route returns the 500
error response "LLM generation failed" instead of a priced response; and
the provider outcome never alters the retrieved-examples list (the route
has no breakdown to alter). -/
theorem claim_C2_amended (req : QuoteRequest) (emb : List ℚ) (k : ℕ)
    (vs : List (List ℚ)) (meta : List DocMeta) (hlen : vs.length ≤ meta.length)
    (raw : String) (j : LlmJson) :
    (quoteHandler req emb k (some ⟨some vs, meta⟩) (.unparseable raw)).premiumOf =
      some 15000 ∧
    quoteHandler req emb k (some ⟨some vs, meta⟩) .httpError =
      .error "LLM generation failed" ∧
    (quoteHandler req emb k (some ⟨some vs, meta⟩) (.unparseable raw)).examplesOf =
      (quoteHandler req emb k (some ⟨some vs, meta⟩) (.parsed j)).examplesOf := by
  obtain ⟨res, hres⟩ := buildResults_isOk meta (faissSearch vs emb k) (fun p hp => by
    rcases faissSearch_ids vs emb k p hp with h | ⟨h1, h2⟩
    · exact Or.inl h
    · exact Or.inr ⟨h1, lt_of_lt_of_le h2 hlen⟩)
  have hsearch : RagIndex.search ⟨some vs, meta⟩ emb k = .ok res := hres
  have hred : ∀ llmOut, quoteHandler req emb k (some ⟨some vs, meta⟩) llmOut =
      quoteWithResults req res llmOut := by
    intro llmOut
    show (match RagIndex.search ⟨some vs, meta⟩ emb k with
          | .error _ => HandlerResult.error "RAG search failed"
          | .ok results => quoteWithResults req results llmOut) = _
    rw [hsearch]
  rw [hred, hred, hred]
  exact ⟨rfl, rfl, rfl⟩

/-- C2 witness: the amended theorem applied at a concrete request, index and
provider reply. -/
theorem claim_C2_witness :
    (quoteHandler emptyReq [1] 1 (some ⟨some [[1]], [⟨"t", none⟩]⟩)
        (.unparseable "x")).premiumOf = some 15000 ∧
    quoteHandler emptyReq [1] 1 (some ⟨some [[1]], [⟨"t", none⟩]⟩) .httpError =
      .error "LLM generation failed" ∧
    (quoteHandler emptyReq [1] 1 (some ⟨some [[1]], [⟨"t", none⟩]⟩)
        (.unparseable "x")).examplesOf =
      (quoteHandler emptyReq [1] 1 (some ⟨some [[1]], [⟨"t", none⟩]⟩)
        (.parsed emptyLlmJson)).examplesOf :=
  claim_C2_amended emptyReq [1] 1 [[1]] [⟨"t", none⟩] (by norm_num) "x" emptyLlmJson

/-- C3: for every QuoteRequest, `compute_breakdown` returns exactly the four
standard mode labels, where each value equals the base annual premium times
that mode's discount factor, divided by that mode's installment count
(1/2/4/12), floored at `minimum_premium/12` = 3000/12, and rounded to the
nearest 10; and the result does not depend on which payment mode the caller
selected. (In the source the Yearly entry floors at the full 3000, but the
two floors agree on every input because the base annual premium is always
at least 5684.) -/
theorem claim_C3 (rpow03 : ℚ → ℚ) (hpow : ∀ x : ℚ, 1 ≤ x → 1 ≤ rpow03 x)
    (req : QuoteRequest) :
    computeBreakdown rpow03 req =
      { yearly := round10 (max (3000/12) (computeBaseAnnual rpow03 req * payFactor "Yearly" / 1))
        halfYearly :=
          round10 (max (3000/12) (computeBaseAnnual rpow03 req * payFactor "Half-Yearly" / 2))
        quarterly :=
          round10 (max (3000/12) (computeBaseAnnual rpow03 req * payFactor "Quarterly" / 4))
        monthly :=
          round10 (max (3000/12) (computeBaseAnnual rpow03 req * payFactor "Monthly" / 12)) } ∧
    ∀ m : Option String, computeBreakdown rpow03 { req with premium_payment_mode := m } =
      computeBreakdown rpow03 req := by
  constructor
  · have hba := computeBaseAnnual_ge rpow03 hpow req
    have hpay : payFactor "Yearly" = 98/100 := by simp [payFactor]
    have hy : round10 (max 3000 (computeBaseAnnual rpow03 req * payFactor "Yearly")) =
        round10 (max (3000/12) (computeBaseAnnual rpow03 req * payFactor "Yearly" / 1)) := by
      rw [div_one, max_eq_right, max_eq_right] <;> rw [hpay] <;> nlinarith
    show Breakdown.mk _ _ _ _ = Breakdown.mk _ _ _ _
    rw [hy]
    rfl
  · intro m
    rfl

/-- C3 witness: the theorem applied at the all-absent request with the
identity standing in for the power function. -/
theorem claim_C3_witness :
    computeBreakdown (fun x => x) emptyReq =
      { yearly :=
          round10 (max (3000/12) (computeBaseAnnual (fun x => x) emptyReq * payFactor "Yearly" / 1))
        halfYearly :=
          round10 (max (3000/12)
            (computeBaseAnnual (fun x => x) emptyReq * payFactor "Half-Yearly" / 2))
        quarterly :=
          round10 (max (3000/12)
            (computeBaseAnnual (fun x => x) emptyReq * payFactor "Quarterly" / 4))
        monthly :=
          round10 (max (3000/12)
            (computeBaseAnnual (fun x => x) emptyReq * payFactor "Monthly" / 12)) } ∧
    computeBreakdown (fun x => x) { emptyReq with premium_payment_mode := some "Monthly" } =
      computeBreakdown (fun x => x) emptyReq :=
  ⟨(claim_C3 (fun x => x) (fun _ hx => hx) emptyReq).1,
   (claim_C3 (fun x => x) (fun _ hx => hx) emptyReq).2 (some "Monthly")⟩

/-- C4 counterexample: the index component performs no normalization. Feeding
the vector (3,4) (norm 5) through `add_documents` stores it unchanged, and
`search` with the same unnormalized query scores it by the raw inner
product 25 — impossible if either the stored vector or the query had been
normalized to unit norm (the squared norm of (3,4) is 25 ≠ 1). -/
theorem claim_C4_counterexample :
    ((⟨none, []⟩ : RagIndex).add_documents [[3, 4]] [⟨"t", none⟩]).index =
      some [[3, 4]] ∧
    ((⟨none, []⟩ : RagIndex).add_documents [[3, 4]] [⟨"t", none⟩]).search [3, 4] 1 =
      .ok [⟨0, 25, "t", none⟩] ∧
    sqNorm [3, 4] = 25 ∧ (25 : ℚ) ≠ 1 := by
  refine ⟨rfl, ?_, by norm_num [sqNorm, dot], by norm_num⟩
  show buildResults _ (faissSearch [[3, 4]] [3, 4] 1) = _
  have hf : faissSearch [[3, 4]] [3, 4] 1 = [((25:ℚ), (0:ℤ))] := by
    simp [faissSearch, sortBy, insertBy, dot]
    norm_num
  rw [hf]
  simp [buildResults, RagIndex.add_documents]

/-- C4 amended: the index component itself performs no L2 normalization at
all — `create_index` and `add_documents` store the caller's vectors exactly
as supplied (and `search` scores with the query as supplied, witnessed by
the counterexample); the `max(norm, 1e-8)` guard described by the spec does
not exist anywhere in the code. Unit-norm vectors are instead produced
upstream by the embedding client, which divides by the exact norm with no
guard. -/
theorem claim_C4_amended (st : RagIndex) (embs : List (List ℚ)) (meta : List DocMeta) :
    ((st.create_index embs).index = some embs ∧
      (st.create_index embs).metadata = st.metadata) ∧
    (st.add_documents embs meta).index = some (st.index.getD [] ++ embs) ∧
    (st.add_documents embs meta).metadata = st.metadata ++ meta := by
  refine ⟨⟨rfl, rfl⟩, ?_, ?_⟩ <;>
    cases h : st.index <;>
    simp [RagIndex.add_documents, h, RagIndex.create_index]

/-- C5: holding every other field fixed, changing the insured-member count
from 1 to n > 1 strictly increases the base annual premium, and the member
surcharge is exactly the linear factor `1 + (n-1) * 0.08` on the raw
premium (compounded linearly, not exponentially). -/
theorem claim_C5 (rpow03 : ℚ → ℚ) (hpow : ∀ x : ℚ, 1 ≤ x → 1 ≤ rpow03 x)
    (req : QuoteRequest) (n : ℤ) (hn : 1 < n) :
    computeBaseAnnual rpow03 { req with number_of_insured_members := some 1 } <
      computeBaseAnnual rpow03 { req with number_of_insured_members := some n } ∧
    premiumRaw rpow03 { req with number_of_insured_members := some n } =
      premiumRaw rpow03 { req with number_of_insured_members := some 1 }
        * (1 + ((n : ℚ) - 1) * (8/100)) := by
  have hmn : membersFactor (pyOrInt (some n) 1) = 1 + ((n : ℚ) - 1) * (8/100) := by
    have hne : n ≠ 0 := by omega
    have hmx : max 0 (n - 1) = n - 1 := by omega
    simp only [pyOrInt, if_neg hne, membersFactor, hmx]
    push_cast
    ring
  have hm1 : membersFactor (pyOrInt (some 1) 1) = 1 := by
    norm_num [pyOrInt, membersFactor]
  have heq : premiumRaw rpow03 { req with number_of_insured_members := some n } =
      premiumRaw rpow03 { req with number_of_insured_members := some 1 }
        * (1 + ((n : ℚ) - 1) * (8/100)) := by
    simp only [premiumRaw, hmn, hm1]
    ring
  refine ⟨?_, heq⟩
  have hr1 := premiumRaw_ge rpow03 hpow { req with number_of_insured_members := some 1 }
  have hn1 : (1:ℚ) ≤ (n:ℚ) - 1 := by
    have h2 : (2:ℤ) ≤ n := by omega
    have h2q : (2:ℚ) ≤ (n:ℚ) := by exact_mod_cast h2
    linarith
  have hprod : (5689:ℚ) * 1 ≤
      premiumRaw rpow03 { req with number_of_insured_members := some 1 } * ((n:ℚ) - 1) :=
    mul_le_mul hr1 hn1 (by norm_num) (by linarith)
  rw [computeBaseAnnual_eq rpow03 hpow, computeBaseAnnual_eq rpow03 hpow]
  have hle := round10_le (premiumRaw rpow03 { req with number_of_insured_members := some 1 })
  have hge := round10_ge (premiumRaw rpow03 { req with number_of_insured_members := some n })
  nlinarith [hle, hge, heq, hprod]

/-- C5 witness: the theorem applied to the all-absent request with n = 2. -/
theorem claim_C5_witness :
    computeBaseAnnual (fun x => x) { emptyReq with number_of_insured_members := some 1 } <
      computeBaseAnnual (fun x => x) { emptyReq with number_of_insured_members := some 2 } ∧
    premiumRaw (fun x => x) { emptyReq with number_of_insured_members := some 2 } =
      premiumRaw (fun x => x) { emptyReq with number_of_insured_members := some 1 }
        * (1 + ((2 : ℚ) - 1) * (8/100)) := by
  have h := claim_C5 (fun x => x) (fun _ hx => hx) emptyReq 2 (by norm_num)
  exact ⟨h.1, by exact_mod_cast h.2⟩

set_option maxHeartbeats 1000000 in
/-- C6: for a present positive sum insured, `_pick_base` returns the rate of
the smallest configured band whose threshold is at least the requested
amount; above the largest threshold (5,000,000) it returns
`42000 * (requested/5000000) ** 0.3`; and with the sum insured absent it
returns the default 15000. -/
theorem claim_C6 (rpow03 : ℚ → ℚ) (s t : ℤ) (r : ℚ) (hs : 0 < s)
    (hmem : (t, r) ∈ baseBySumInsured) (hle : s ≤ t)
    (hmin : ∀ p ∈ baseBySumInsured, s ≤ p.1 → t ≤ p.1) :
    pickBase rpow03 (some s) = r ∧
    (∀ u : ℤ, 5000000 < u → pickBase rpow03 (some u) = 42000 * rpow03 ((u : ℚ) / 5000000)) ∧
    pickBase rpow03 none = 15000 := by
  have m1 : ((300000:ℤ), (7000:ℚ)) ∈ baseBySumInsured := List.Mem.head _
  have m2 : ((500000:ℤ), (9000:ℚ)) ∈ baseBySumInsured :=
    List.Mem.tail _ (List.Mem.head _)
  have m3 : ((700000:ℤ), (12000:ℚ)) ∈ baseBySumInsured :=
    List.Mem.tail _ (List.Mem.tail _ (List.Mem.head _))
  have m4 : ((1000000:ℤ), (15000:ℚ)) ∈ baseBySumInsured :=
    List.Mem.tail _ (List.Mem.tail _ (List.Mem.tail _ (List.Mem.head _)))
  have m5 : ((1500000:ℤ), (19000:ℚ)) ∈ baseBySumInsured :=
    List.Mem.tail _ (List.Mem.tail _ (List.Mem.tail _ (List.Mem.tail _ (List.Mem.head _))))
  have m6 : ((2000000:ℤ), (23000:ℚ)) ∈ baseBySumInsured :=
    List.Mem.tail _ (List.Mem.tail _ (List.Mem.tail _ (List.Mem.tail _ (List.Mem.tail _
      (List.Mem.head _)))))
  have m7 : ((3000000:ℤ), (30000:ℚ)) ∈ baseBySumInsured :=
    List.Mem.tail _ (List.Mem.tail _ (List.Mem.tail _ (List.Mem.tail _ (List.Mem.tail _
      (List.Mem.tail _ (List.Mem.head _))))))
  refine ⟨?_, ?_, rfl⟩
  · simp only [baseBySumInsured, List.mem_cons, List.not_mem_nil, or_false,
      Prod.mk.injEq] at hmem
    rcases hmem with hc | hc | hc | hc | hc | hc | hc | hc <;>
      obtain ⟨rfl, rfl⟩ := hc
    · rw [pickBase_eq]; split_ifs <;> first | rfl | (exfalso; omega)
    · have hgt : 300000 < s := by
        by_contra hco; push_neg at hco
        exact absurd (hmin (300000, 7000) m1 hco) (by omega)
      rw [pickBase_eq]; split_ifs <;> first | rfl | (exfalso; omega)
    · have hgt : 500000 < s := by
        by_contra hco; push_neg at hco
        exact absurd (hmin (500000, 9000) m2 hco) (by omega)
      rw [pickBase_eq]; split_ifs <;> first | rfl | (exfalso; omega)
    · have hgt : 700000 < s := by
        by_contra hco; push_neg at hco
        exact absurd (hmin (700000, 12000) m3 hco) (by omega)
      rw [pickBase_eq]; split_ifs <;> first | rfl | (exfalso; omega)
    · have hgt : 1000000 < s := by
        by_contra hco; push_neg at hco
        exact absurd (hmin (1000000, 15000) m4 hco) (by omega)
      rw [pickBase_eq]; split_ifs <;> first | rfl | (exfalso; omega)
    · have hgt : 1500000 < s := by
        by_contra hco; push_neg at hco
        exact absurd (hmin (1500000, 19000) m5 hco) (by omega)
      rw [pickBase_eq]; split_ifs <;> first | rfl | (exfalso; omega)
    · have hgt : 2000000 < s := by
        by_contra hco; push_neg at hco
        exact absurd (hmin (2000000, 23000) m6 hco) (by omega)
      rw [pickBase_eq]; split_ifs <;> first | rfl | (exfalso; omega)
    · have hgt : 3000000 < s := by
        by_contra hco; push_neg at hco
        exact absurd (hmin (3000000, 30000) m7 hco) (by omega)
      rw [pickBase_eq]; split_ifs <;> first | rfl | (exfalso; omega)
  · intro u hu
    rw [pickBase_eq]
    split_ifs <;> first | rfl | (exfalso; omega)

/-- C6 witness: the theorem applied at sum insured 400000, whose smallest
covering band is (500000, 9000); the minimality side conditions are checked
by `decide` over the configured band list. -/
theorem claim_C6_witness :
    pickBase (fun x => x) (some 400000) = 9000 ∧
    pickBase (fun x => x) (some 6000000) = 42000 * ((6000000 : ℚ) / 5000000) ∧
    pickBase (fun x => x) none = 15000 := by
  have h := claim_C6 (fun x => x) 400000 500000 9000 (by norm_num)
    (List.Mem.tail _ (List.Mem.head _)) (by norm_num)
    (by
      intro p hp hle
      simp only [baseBySumInsured, List.mem_cons, List.not_mem_nil, or_false] at hp
      rcases hp with rfl | rfl | rfl | rfl | rfl | rfl | rfl | rfl <;> omega)
  exact ⟨h.1, h.2.1 6000000 (by norm_num), h.2.2⟩

/-- C7 counterexample: an index object that exists but holds zero vectors
does not make `search` fail with IndexNotLoaded — it silently returns the
empty result list. -/
theorem claim_C7_counterexample :
    RagIndex.search ⟨some [], []⟩ [1] 8 = .ok [] := rfl

/-- C7 amended: `search` raises IndexNotLoaded exactly when no index object
is loaded (`self.index is None`); when an index object exists but holds
zero vectors, `search` instead silently succeeds with an empty result
list. -/
theorem claim_C7_amended (q : List ℚ) (k : ℕ) (meta : List DocMeta) :
    RagIndex.search ⟨none, meta⟩ q k = .error .indexNotLoaded ∧
    RagIndex.search ⟨some [], meta⟩ q k = .ok [] := by
  refine ⟨rfl, ?_⟩
  show buildResults meta (faissSearch [] q k) = .ok []
  have h : faissSearch [] q k = List.replicate k ((0:ℚ), (-1:ℤ)) := by
    simp [faissSearch, sortBy]
  rw [h, buildResults_replicate]

/-- C8 counterexample: `load` performs no count-consistency check. Artifacts
holding 2 vectors and 3 metadata records load successfully (no Corrupt
error), leaving the mismatched counts in place. -/
theorem claim_C8_counterexample :
    RagIndex.load (some [[1], [2]]) (some [⟨"m", none⟩, ⟨"m", none⟩, ⟨"m", none⟩]) =
      .ok ⟨some [[1], [2]], [⟨"m", none⟩, ⟨"m", none⟩, ⟨"m", none⟩]⟩ ∧
    ([[1], [2]] : List (List ℚ)).length ≠
      ([⟨"m", none⟩, ⟨"m", none⟩, ⟨"m", none⟩] : List DocMeta).length :=
  ⟨rfl, by decide⟩

/-- C8 amended: `load` fails with NotFound if either the vector-store
artifact or the metadata artifact is absent; when both are present it loads
both together unconditionally — there is no Corrupt check comparing the
metadata count with the vector count. -/
theorem claim_C8_amended (ms : Option (List DocMeta)) (vs : List (List ℚ))
    (meta : List DocMeta) :
    RagIndex.load none ms = .error .notFound ∧
    RagIndex.load (some vs) none = .error .notFound ∧
    RagIndex.load (some vs) (some meta) = .ok ⟨some vs, meta⟩ :=
  ⟨rfl, rfl, rfl⟩

/-- C9 counterexample: the same field values (age 30, gender Male) produce
different text from the query-time and the ingestion-time encoders — the
separators differ (" " vs "; "). -/
theorem claim_C9_counterexample :
    buildQueryText (fun _ _ => "") { emptyReq with age := some 30, gender := some "Male" } =
      "Age: 30 Gender: Male" ∧
    buildTextRepresentation (fun _ _ => "")
      { emptyRecord with age := some 30, gender := some "Male" } = "Age: 30; Gender: Male" ∧
    ("Age: 30 Gender: Male" : String) ≠ "Age: 30; Gender: Male" :=
  ⟨rfl, rfl, by decide⟩

/-- C9 amended: the two encoders do not produce identical text for the same
field values: they share neither separator (" " vs "; ") nor labels — for a
record whose only present field is the member count n, the query encoder
emits "Members: n" while the ingestion encoder emits "Family size: n",
which are different strings for every n. -/
theorem claim_C9_amended (n : ℤ) (hn : n ≠ 0) (fmt : String → ℚ → String) :
    buildQueryText fmt { emptyReq with number_of_insured_members := some n } =
      "Members: " ++ toString n ∧
    buildTextRepresentation fmt { emptyRecord with members := some n } =
      "Family size: " ++ toString n ∧
    buildQueryText fmt { emptyReq with number_of_insured_members := some n } ≠
      buildTextRepresentation fmt { emptyRecord with members := some n } := by
  have h1 : buildQueryText fmt { emptyReq with number_of_insured_members := some n } =
      "Members: " ++ toString n := by
    unfold buildQueryText
    simp only [emptyReq, agePart, strParts, intParts, ratParts, if_neg hn]
    simp only [List.nil_append, List.append_nil]
    rfl
  have h2 : buildTextRepresentation fmt { emptyRecord with members := some n } =
      "Family size: " ++ toString n := by
    unfold buildTextRepresentation
    simp only [emptyRecord, notnaStr, notnaInt, notnaRat]
    simp only [List.nil_append, List.append_nil, String.append_empty]
    rfl
  refine ⟨h1, h2, ?_⟩
  rw [h1, h2]
  intro hcontra
  have hlen := congrArg String.length hcontra
  rw [String.length_append, String.length_append] at hlen
  have l1 : ("Members: " : String).length = 9 := rfl
  have l2 : ("Family size: " : String).length = 13 := rfl
  omega

/-- C9 witness: the amended theorem applied at member count 2. -/
theorem claim_C9_witness :
    buildQueryText (fun _ _ => "") { emptyReq with number_of_insured_members := some 2 } =
      "Members: " ++ toString (2 : ℤ) ∧
    buildTextRepresentation (fun _ _ => "") { emptyRecord with members := some 2 } =
      "Family size: " ++ toString (2 : ℤ) ∧
    buildQueryText (fun _ _ => "") { emptyReq with number_of_insured_members := some 2 } ≠
      buildTextRepresentation (fun _ _ => "") { emptyRecord with members := some 2 } :=
  claim_C9_amended 2 (by norm_num) (fun _ _ => "")

/-- C10: a QuoteRequest with sum insured 0 passes schema validation (the
validator range-checks only the age field, so replacing the sum insured by
0 never changes the verdict), and `_pick_base` treats 0 as absent — Python
`if not sum_insured` — returning the default base rate 15000 instead of
the smallest band's 7000, which it returns for every other value
≤ 300000 (including negative ones). -/
theorem claim_C10 (rpow03 : ℚ → ℚ) (req : QuoteRequest) :
    validates { req with sum_insured := some 0 } = validates req ∧
    pickBase rpow03 (some 0) = 15000 ∧
    (∀ s : ℤ, s ≤ 300000 → s ≠ 0 → pickBase rpow03 (some s) = 7000) := by
  refine ⟨rfl, rfl, ?_⟩
  intro s hle hne
  rw [pickBase_eq]
  split_ifs <;> first | rfl | (exfalso; omega)

/-- C10 witness: the theorem applied at a concrete request and at the
boundary inputs 0 and 5. -/
theorem claim_C10_witness :
    validates { emptyReq with sum_insured := some 0 } = validates emptyReq ∧
    pickBase (fun x => x) (some 0) = 15000 ∧
    pickBase (fun x => x) (some 5) = 7000 := by
  have h := claim_C10 (fun x => x) emptyReq
  exact ⟨h.1, h.2.1, h.2.2 5 (by norm_num) (by norm_num)⟩
